import Mathlib

/-!
Verification development for the Tambo music-player repository.

The repository consists of:
  * two Next.js route handlers (`src/app/api/music/random/route.ts` and the
    search route): the Discovery Proxy and the Search Proxy;
  * a browser-side data helper (`searchMusic`, `getRandomSong`): the
    Track Fetch Client;
  * the agent-tool registration layer (`src/lib/tambo.ts`);
  * the `MusicCard` component family, whose playback logic is the
    Preview Player.

Each TypeScript function relevant to the frozen claims is embedded below as
an executable Lean definition; network responses, random indices and
audio-element events appear as explicit inputs.  Times and durations are
rationals; JavaScript numbers that may be `NaN` are `Option ℚ` with `none`
standing for `NaN`.
-/

namespace MusicPlayer

/-! ## HTTP modelling shared by both route handlers -/

/-- The upstream (Deezer) response as seen by a route handler after `fetch`:
the `ok` flag, the HTTP status, and the already-parsed JSON body. -/
structure Upstream (α : Type) where
  ok : Bool
  status : Nat
  body : α
  deriving Repr, DecidableEq

/-- What a route handler sends back: `NextResponse.json(body)` (status 200)
or `NextResponse.json({error: msg}, {status})`. -/
inductive RouteResponse (α : Type) where
  | json (body : α)
  | jsonError (msg : String) (status : Nat)
  deriving Repr, DecidableEq

/-- HTTP status of a route response (`NextResponse.json` defaults to 200). -/
def RouteResponse.statusOf : RouteResponse α → Nat
  | .json _ => 200
  | .jsonError _ s => s

/-! ## Search Proxy (`GET` of the search route)

Embeds the handler: it reads `q` from the query string (`none` models an
absent parameter), returns 400 when `!query`, otherwise performs exactly one
upstream `fetch`, throwing (caught into a generic 500) on `!response.ok`,
and otherwise passes the parsed upstream JSON through unmodified.  The
second component of the result counts the upstream requests issued. -/

def searchGET (q : Option String) (up : Upstream α) :
    RouteResponse α × Nat :=
  match q with
  | none => (.jsonError "Query parameter is required" 400, 0)
  | some qs =>
    if qs = "" then (.jsonError "Query parameter is required" 400, 0)
    else if up.ok then (.json up.body, 1)
    else (.jsonError "Failed to search for music" 500, 1)

/-! ## Discovery Proxy (`GET` of the random route)

The handler picks a mood query (affecting only the upstream URL, hence
subsumed in the `Upstream` input), fetches once, and when
`data.data && data.data.length > 0` returns a single random element of
`data.data` wrapped in a list; otherwise `{ data: [] }`.  The random index
`Math.floor(Math.random() * data.data.length)` is the explicit input `k`;
unchecked JavaScript indexing `data.data[k]` is `l[k]?.toList`. -/

/-- The fixed set of mood descriptors used by the random route. -/
def MOOD_QUERIES : List String :=
  ["happy upbeat songs", "chill relaxing music", "energetic workout songs",
   "feel good vibes", "motivational music", "peaceful ambient",
   "uplifting pop songs", "smooth jazz", "indie feel good",
   "classic rock hits"]

/-- Parsed JSON body of the Deezer search response: the `data` field, absent
(`none`) when the JSON has no `data` array. -/
structure DeezerJson (τ : Type) where
  dataField : Option (List τ)
  deriving Repr, DecidableEq

def randomGET (up : Upstream (DeezerJson τ)) (k : Nat) :
    RouteResponse (List τ) :=
  if up.ok then
    match up.body.dataField with
    | some l =>
      if 0 < l.length then .json (l[k]?.toList)
      else .json []
    | none => .json []
  else .jsonError "Failed to get random music" 500

/-! ## Track Fetch Client (`searchMusic` in `services/music-data.ts`)

The browser-side fetch result: `ok`/`status`, plus the parsed JSON body's
`error` field and `data` field.  `searchMusic`'s `try`/`catch` rethrows the
caught error unchanged, so the function is the straight-line error
translation below. -/

/-- The `artist` sub-record of the `TrackInfo` interface. -/
structure ArtistInfo where
  id : Int
  name : String
  picture_medium : String
  deriving Repr, DecidableEq

/-- The `album` sub-record of the `TrackInfo` interface. -/
structure AlbumInfo where
  id : Int
  title : String
  cover_medium : String
  deriving Repr, DecidableEq

/-- The `TrackInfo` interface of `services/music-data.ts`. -/
structure TrackInfo where
  id : Int
  title : String
  title_short : String
  artist : ArtistInfo
  album : AlbumInfo
  duration : Int
  preview : String
  link : String
  rank : Int
  deriving Repr, DecidableEq

structure FetchResp where
  ok : Bool
  status : Nat
  errField : Option String
  dataField : Option (List TrackInfo)
  deriving Repr, DecidableEq

def searchMusic (query : String) (resp : FetchResp) :
    Except String (List TrackInfo) :=
  if !resp.ok then .error ("API error: " ++ toString resp.status)
  else
    match resp.errField with
    | some e => .error e
    | none => .ok (resp.dataField.getD [])

/-! ## Agent-tool layer (`searchMusic` tool in `src/lib/tambo.ts`)

The tool validates the query (`!query` → throw), calls the client helper,
throws `No music found for "<query>"` on an empty list, and otherwise
returns the first track mapped to the card payload.  The outer `catch`
rethrows with the same message, so it is the identity on these errors. -/

/-- The record the `searchMusic` tool returns (the `TrackCardPayload`
shape of `musicCardSchema`). -/
structure TrackCardPayload where
  id : Int
  title : String
  artist : String
  album : String
  duration : Int
  preview : String
  link : String
  artistImage : String
  albumCover : String
  rank : Int
  deriving Repr, DecidableEq

/-- The field mapping the tool applies to the first result. -/
def toPayload (track : TrackInfo) : TrackCardPayload :=
  { id := track.id
    title := track.title
    artist := track.artist.name
    album := track.album.title
    duration := track.duration
    preview := track.preview
    link := track.link
    artistImage := track.artist.picture_medium
    albumCover := track.album.cover_medium
    rank := track.rank }

def searchMusicTool (query : String) (resp : FetchResp) :
    Except String TrackCardPayload :=
  if query = "" then .error "Invalid search query provided"
  else
    match searchMusic query resp with
    | .error e => .error e
    | .ok tracks =>
      match tracks with
      | [] => .error ("No music found for \"" ++ query ++ "\"")
      | track :: _ => .ok (toPayload track)

/-! ## Preview Player (`MusicCardCore` playback state)

The component state consists of `isPlaying`, `audio` (the lazily created
`HTMLAudioElement`, `none` until first play), `currentTime`,
`audioDuration` (initially 30) and `isLoading`.  An audio element is
modelled by its creation index and the URL it was constructed with; the
ghost counter `resourcesCreated` counts `new Audio(...)` constructions.
The host environment's data — whether `a.play()` resolves or rejects, the
duration reported by `loadedmetadata` (`none` = `NaN`), and the element's
`currentTime` sampled by the 100 ms interval — are explicit inputs. -/

/-- One `new Audio(preview)` element: its creation index and source URL. -/
structure AudioRes where
  rid : Nat
  url : String
  deriving Repr, DecidableEq

structure PState where
  isPlaying : Bool
  audio : Option AudioRes
  currentTime : ℚ
  audioDuration : ℚ
  isLoading : Bool
  resourcesCreated : Nat
  deriving Repr, DecidableEq

/-- The `useState` initial values: not playing, no audio element, time 0,
duration 30, not loading. -/
def initState : PState :=
  { isPlaying := false, audio := none, currentTime := 0,
    audioDuration := 30, isLoading := false, resourcesCreated := 0 }

/-- Synchronous prefix of `togglePlay` when no audio element exists yet:
`setIsLoading(true)`, construct `new Audio(preview)`, attach the listeners,
`setAudio(a)` — all before `await a.play()` resolves. -/
def togglePlayPending (s : PState) (preview : String) : PState :=
  match s.audio with
  | none =>
    { s with isLoading := true,
             audio := some ⟨s.resourcesCreated, preview⟩,
             resourcesCreated := s.resourcesCreated + 1 }
  | some _ => s

/-- The whole `togglePlay` handler, with `playOk` the outcome of the awaited
`a.play()` / `audio.play()` promise.  First branch: create the element, then
`setIsPlaying(true)` on resolution or `setIsLoading(false)` on rejection
(the `catch`).  Otherwise: pause when playing, else resume — a rejected
resume is swallowed by the empty `catch`, leaving the state unchanged. -/
def togglePlay (s : PState) (preview : String) (playOk : Bool) : PState :=
  match s.audio with
  | none =>
    let s1 := togglePlayPending s preview
    if playOk then { s1 with isPlaying := true }
    else { s1 with isLoading := false }
  | some _ =>
    if s.isPlaying then { s with isPlaying := false }
    else if playOk then { s with isPlaying := true }
    else s

/-- The `ended` listener: `setIsPlaying(false); setCurrentTime(0)`.  The
listener only exists once an element has been constructed. -/
def onEnded (s : PState) : PState :=
  if s.audio.isSome then { s with isPlaying := false, currentTime := 0 }
  else s

/-- JavaScript `d || 30` on a number that may be `NaN` (`none`) — the falsy
values among numbers are `NaN` and `0`. -/
def jsOr30 (d : Option ℚ) : ℚ :=
  match d with
  | none => 30
  | some x => if x = 0 then 30 else x

/-- The `loadedmetadata` listener:
`setAudioDuration(a.duration || 30); setIsLoading(false)`. -/
def onLoadedMetadata (s : PState) (d : Option ℚ) : PState :=
  if s.audio.isSome then
    { s with audioDuration := jsOr30 d, isLoading := false }
  else s

/-- The `error` listener: `setIsLoading(false)`. -/
def onError (s : PState) : PState :=
  if s.audio.isSome then { s with isLoading := false } else s

/-- One tick of the 100 ms progress interval, which runs exactly while
`isPlaying && audio`: `setCurrentTime(audio.currentTime)`, with `t` the
element's sampled position. -/
def progressTick (s : PState) (t : ℚ) : PState :=
  if s.isPlaying && s.audio.isSome then { s with currentTime := t } else s

/-- The `handleSeek` handler on input value `t`: `setCurrentTime(t)` and,
when an element exists, `audio.currentTime = t`.  Note: no clamping. -/
def handleSeek (s : PState) (t : ℚ) : PState :=
  { s with currentTime := t }

/-- The displayed progress fraction:
`Math.min(100, Math.max(0, (currentTime / audioDuration) * 100))`. -/
def pct (s : PState) : ℚ :=
  min 100 (max 0 (s.currentTime / s.audioDuration * 100))

/-- Events driving the player: a click on the play/pause button (with the
play-promise outcome), the three element listeners, an interval tick, and a
seek. -/
inductive PEvent where
  | toggle (preview : String) (playOk : Bool)
  | ended
  | metadata (d : Option ℚ)
  | loadError
  | tick (t : ℚ)
  | seek (t : ℚ)
  deriving Repr, DecidableEq

def step (s : PState) : PEvent → PState
  | .toggle preview playOk => togglePlay s preview playOk
  | .ended => onEnded s
  | .metadata d => onLoadedMetadata s d
  | .loadError => onError s
  | .tick t => progressTick s t
  | .seek t => handleSeek s t

/-- Host-environment guarantee used for reachability: an
`HTMLMediaElement.duration` is `NaN` or a nonnegative number, never a
negative one. -/
def WfEvent : PEvent → Prop
  | .metadata (some x) => 0 ≤ x
  | _ => True

instance : DecidablePred WfEvent := by
  intro e
  cases e with
  | metadata d => cases d <;> simp [WfEvent] <;> infer_instance
  | _ => simp only [WfEvent]; infer_instance

/-- States reachable from the initial state along well-formed events. -/
def Reach (s : PState) : Prop :=
  ∃ tr : List PEvent, (∀ e ∈ tr, WfEvent e) ∧ s = tr.foldl step initState

/-! ## MusicCard rendering

The file exports `MusicCardWithLoadingState` as the `MusicCard` component.
Render outputs are: `renderNull` (the component returns `null`),
`renderSkeleton` (`<MusicCardSkeleton />`) and `renderCard` (the full
card).  JavaScript truthiness of a possibly-absent string prop: `undefined`
(`none`) and `""` are falsy. -/

inductive RenderOut where
  | renderNull
  | renderSkeleton
  | renderCard
  deriving Repr, DecidableEq

/-- The props the render guards inspect (the other `MusicCardProps` fields
never influence which of the three outputs is produced). -/
structure CardProps where
  title : Option String
  artist : Option String
  preview : Option String
  deriving Repr, DecidableEq

/-- JavaScript truthiness of a string-valued prop that may be absent. -/
def truthyStr : Option String → Bool
  | none => false
  | some s => !(s == "")

/-- `Boolean(props.title && props.artist && props.preview)`. -/
def isComponentComplete (p : CardProps) : Bool :=
  truthyStr p.title && truthyStr p.artist && truthyStr p.preview

/-- `MusicCardCore`: `if (!title || !artist || !preview) return null;`
followed by the card markup. -/
def renderMusicCardCore (p : CardProps) : RenderOut :=
  if !truthyStr p.title || !truthyStr p.artist || !truthyStr p.preview then
    .renderNull
  else .renderCard

/-- The standalone first `MusicCard` version, whose guard is identical to
`MusicCardCore`'s. -/
def renderMusicCardFirst (p : CardProps) : RenderOut :=
  if !truthyStr p.title || !truthyStr p.artist || !truthyStr p.preview then
    .renderNull
  else .renderCard

/-- The exported wrapper `MusicCardWithLoadingState`:
`if (showSkeleton || !isComponentComplete) return <MusicCardSkeleton />;`
then `<MusicCardCore {...props} />`. -/
def renderMusicCard (showSkeleton : Bool) (p : CardProps) : RenderOut :=
  if showSkeleton || !isComponentComplete p then .renderSkeleton
  else renderMusicCardCore p

/-! ## Auxiliary definitions used in the statements -/

/-- A search-route fetch result that is successful, carries no `error`
field, and whose `data` array is empty. -/
def emptyOkResp : FetchResp :=
  { ok := true, status := 200, errField := none, dataField := some [] }

/-- Position invariant of claim C5: `0 ≤ positionSeconds ≤
durationSeconds`. -/
def PosInv (s : PState) : Prop :=
  0 ≤ s.currentTime ∧ s.currentTime ≤ s.audioDuration

instance (s : PState) : Decidable (PosInv s) := by
  unfold PosInv; infer_instance

/-- A concrete player state: playing the resource with creation index 0 at
position 29 of a 30-second clip. -/
def playingDemoState : PState :=
  ⟨true, some ⟨0, "u"⟩, 29, 30, false, 1⟩

/-! # Theorems -/

/-- Claim C1, counterexample: for the query `"beatles"` with a successful
response whose result list is empty, the Track Fetch Client's `searchMusic`
returns the empty list instead of raising an error naming the query
(`data.data || []` is returned as-is; no emptiness check exists in
`services/music-data.ts`). -/
theorem claim_C1_cex :
    searchMusic "beatles" emptyOkResp = Except.ok [] := by
  rfl

/-- Claim C1, amended: for every non-empty query whose search result list is
empty, the Track Fetch Client's `searchMusic` returns the empty list; the
error whose message names the query is raised one layer up, by the
`searchMusic` agent tool in `tambo.ts`, which throws
`No music found for "<query>"` exactly when the returned list is empty. -/
theorem claim_C1_amended (q : String) (hq : q ≠ "") (resp : FetchResp)
    (hok : resp.ok = true) (herr : resp.errField = none)
    (hdata : resp.dataField = some []) :
    searchMusic q resp = Except.ok [] ∧
    searchMusicTool q resp =
      Except.error ("No music found for \"" ++ q ++ "\"") := by
  have h1 : searchMusic q resp = Except.ok [] := by
    simp [searchMusic, hok, herr, hdata]
  refine ⟨h1, ?_⟩
  simp [searchMusicTool, hq, h1]

/-- Claim C1, witness for the amended theorem at query `"beatles"`. -/
theorem claim_C1_amended_witness :
    searchMusic "beatles" emptyOkResp = Except.ok [] ∧
    searchMusicTool "beatles" emptyOkResp =
      Except.error ("No music found for \"" ++ "beatles" ++ "\"") :=
  claim_C1_amended "beatles" (by decide) emptyOkResp rfl rfl rfl

/-- Claim C2: for every non-empty query string, the Search Proxy issues
exactly one upstream request, and when the upstream responds with success it
returns the upstream JSON payload unmodified (as `NextResponse.json(data)`,
for any payload type). -/
theorem claim_C2 {α : Type} (q : String) (hq : q ≠ "") (up : Upstream α) :
    (searchGET (some q) up).2 = 1 ∧
    (up.ok = true → (searchGET (some q) up).1 = .json up.body) := by
  cases h : up.ok <;> simp [searchGET, hq, h]

/-- Claim C2, witness: the query `"jazz"` with a successful upstream
response carrying payload `42`. -/
theorem claim_C2_witness :
    (searchGET (some "jazz") (Upstream.mk true 200 (42 : Nat))).2 = 1 ∧
    ((Upstream.mk true 200 (42 : Nat)).ok = true →
      (searchGET (some "jazz") (Upstream.mk true 200 (42 : Nat))).1 =
        .json 42) :=
  claim_C2 "jazz" (by decide) _

/-- Claim C6: for every upstream result list of length `N ≥ 1` and random
index `k < N`, the Discovery Proxy returns exactly the element at index `k`
wrapped as a single-element list with success status 200; for a result list
of length 0 it returns `{ data: [] }` with success status 200, not an
error. -/
theorem claim_C6 {τ : Type} (l : List τ) (k : Nat) (hk : k < l.length)
    (k2 : Nat) :
    randomGET (Upstream.mk true 200 (DeezerJson.mk (some l))) k =
      .json [l.get ⟨k, hk⟩] ∧
    (randomGET (Upstream.mk true 200 (DeezerJson.mk (some l))) k).statusOf
      = 200 ∧
    randomGET (τ := τ) (Upstream.mk true 200 (DeezerJson.mk (some [])))
      k2 = .json [] ∧
    (randomGET (τ := τ) (Upstream.mk true 200 (DeezerJson.mk (some [])))
      k2).statusOf = 200 := by
  have hpos : 0 < l.length := Nat.lt_of_le_of_lt (Nat.zero_le k) hk
  have hget : l[k]? = some (l.get ⟨k, hk⟩) := by
    simp [List.getElem?_eq_getElem hk]
  refine ⟨?_, ?_, ?_, ?_⟩ <;>
    simp [randomGET, RouteResponse.statusOf, hpos, hget]

/-- Claim C6, witness: the list `[10, 20, 30]` with random index 1 yields
`{ data: [20] }`, and the empty list yields `{ data: [] }`. -/
theorem claim_C6_witness :
    randomGET (Upstream.mk true 200 (DeezerJson.mk (some [10, 20, 30]))) 1 =
      RouteResponse.json [(20 : Nat)] ∧
    randomGET (τ := Nat) (Upstream.mk true 200 (DeezerJson.mk (some [])))
      5 = RouteResponse.json [] := by
  have h := claim_C6 [10, 20, 30] 1 (by norm_num) 5
  exact ⟨h.1, h.2.2.1⟩

/-- Claim C3, counterexample: start from the initial state, let the first
play request fail (`a.play()` rejects and the `error` listener fires).
`setAudio(a)` ran before the failure, so the element with creation index 0
is retained; the retry (`togglePlay` again) takes the existing-audio branch
and calls `play()` on that same element — afterwards `audio` is unchanged
and the total number of `new Audio` constructions is still 1, so no new
audio resource is created for the retry, contrary to the claim. -/
theorem claim_C3_cex :
    (togglePlay (onError (togglePlay initState "u" false)) "u" true).audio =
      (onError (togglePlay initState "u" false)).audio ∧
    (onError (togglePlay initState "u" false)).audio = some ⟨0, "u"⟩ ∧
    (togglePlay (onError (togglePlay initState "u" false)) "u"
      true).resourcesCreated = 1 := by
  decide

/-- Claim C3, amended: after a Preview Player's first play request fails,
the failed audio resource is retained (`setAudio` ran before the failure),
and a subsequent play request reuses that same resource — it calls `play()`
on it and constructs no new one, whatever the outcome of the retry. -/
theorem claim_C3_amended (s : PState) (hA : s.audio = none)
    (hP : s.isPlaying = false) (preview : String) (playOk : Bool) :
    (onError (togglePlay s preview false)).audio =
      some ⟨s.resourcesCreated, preview⟩ ∧
    (togglePlay (onError (togglePlay s preview false)) preview
      playOk).audio = some ⟨s.resourcesCreated, preview⟩ ∧
    (togglePlay (onError (togglePlay s preview false)) preview
      playOk).resourcesCreated = s.resourcesCreated + 1 := by
  cases playOk <;>
    simp [togglePlay, togglePlayPending, onError, hA, hP]

/-- Claim C3, witness for the amended theorem at the initial state. -/
theorem claim_C3_amended_witness :
    (onError (togglePlay initState "u" false)).audio = some ⟨0, "u"⟩ ∧
    (togglePlay (onError (togglePlay initState "u" false)) "u"
      true).audio = some ⟨0, "u"⟩ ∧
    (togglePlay (onError (togglePlay initState "u" false)) "u"
      true).resourcesCreated = 0 + 1 :=
  claim_C3_amended initState rfl rfl "u" true

/-- Claim C4, counterexample: props whose title is absent (with artist and
preview present), rendered by the exported `MusicCard` component
(`MusicCardWithLoadingState`) outside any skeleton-forcing phase
(`showSkeleton = false`): the output is the loading skeleton, which is not
"nothing". -/
theorem claim_C4_cex :
    renderMusicCard false ⟨none, some "a", some "p"⟩ =
      RenderOut.renderSkeleton ∧
    RenderOut.renderSkeleton ≠ RenderOut.renderNull := by
  decide

/-- Claim C4, amended: for every props record in which title, artist, or
the preview URL is absent (or empty), `MusicCardCore` and the first
`MusicCard` version render nothing, but the exported wrapper
(`MusicCardWithLoadingState`) renders the loading skeleton instead of
nothing, regardless of its internal `showSkeleton` flag. -/
theorem claim_C4_amended (p : CardProps)
    (h : isComponentComplete p = false) (sk : Bool) :
    renderMusicCardCore p = RenderOut.renderNull ∧
    renderMusicCardFirst p = RenderOut.renderNull ∧
    renderMusicCard sk p = RenderOut.renderSkeleton := by
  cases ht : truthyStr p.title <;> cases ha : truthyStr p.artist <;>
    cases hp : truthyStr p.preview <;>
    simp_all [renderMusicCardCore, renderMusicCardFirst, renderMusicCard,
      isComponentComplete]

/-- Claim C4, witness for the amended theorem: absent title. -/
theorem claim_C4_amended_witness :
    renderMusicCardCore ⟨none, some "a", some "p"⟩ =
      RenderOut.renderNull ∧
    renderMusicCardFirst ⟨none, some "a", some "p"⟩ =
      RenderOut.renderNull ∧
    renderMusicCard false ⟨none, some "a", some "p"⟩ =
      RenderOut.renderSkeleton :=
  claim_C4_amended ⟨none, some "a", some "p"⟩ (by decide) false

/-- Claim C5, counterexample: from the initial state (duration 30), the
seek handler invoked with input value 100 stores `positionSeconds = 100`
unclamped, violating `positionSeconds ≤ durationSeconds`
(`handleSeek` performs `setCurrentTime(parseFloat(value))` with no
clamping). -/
theorem claim_C5_cex :
    (handleSeek initState 100).currentTime = 100 ∧
    (handleSeek initState 100).audioDuration = 30 ∧
    ¬ ((handleSeek initState 100).currentTime ≤
        (handleSeek initState 100).audioDuration) := by
  refine ⟨rfl, rfl, ?_⟩
  norm_num [handleSeek, initState]

/-- Claim C5, amended: `0 ≤ positionSeconds ≤ durationSeconds` is preserved
by play/pause (`togglePlay`), natural end, the error listener, progress
ticks whose sampled value lies in `[0, durationSeconds]`, and seeks whose
input value lies in `[0, durationSeconds]`; a metadata update preserves it
when the newly reported duration is at least the current position.  A seek
outside `[0, durationSeconds]` is stored unclamped (see the
counterexample), so for such inputs only the displayed fraction `pct` is
clamped, not `positionSeconds`. -/
theorem claim_C5_amended (s : PState) (hInv : PosInv s) :
    (∀ preview playOk, PosInv (togglePlay s preview playOk)) ∧
    PosInv (onEnded s) ∧
    PosInv (onError s) ∧
    (∀ t, 0 ≤ t → t ≤ s.audioDuration → PosInv (progressTick s t)) ∧
    (∀ t, 0 ≤ t → t ≤ s.audioDuration → PosInv (handleSeek s t)) ∧
    (∀ d, s.currentTime ≤ jsOr30 d → PosInv (onLoadedMetadata s d)) := by
  obtain ⟨h0, h1⟩ := hInv
  have hd : (0 : ℚ) ≤ s.audioDuration := le_trans h0 h1
  refine ⟨?_, ?_, ?_, ?_, ?_, ?_⟩
  · intro preview playOk
    cases hA : s.audio <;> cases playOk <;>
      cases hP : s.isPlaying <;>
      simp [togglePlay, togglePlayPending, PosInv, hA, hP, h0, h1]
  · cases hA : s.audio <;> simp [onEnded, PosInv, hA, h0, h1, hd]
  · cases hA : s.audio <;> simp [onError, PosInv, hA, h0, h1]
  · intro t ht0 ht1
    cases hA : s.audio <;> cases hP : s.isPlaying <;>
      simp [progressTick, PosInv, hA, hP, h0, h1, ht0, ht1]
  · intro t ht0 ht1
    exact ⟨ht0, ht1⟩
  · intro d hdle
    cases hA : s.audio <;>
      simp [onLoadedMetadata, PosInv, hA, h0, h1, hdle]

/-- Claim C5, witness for the amended theorem: at the initial state, a seek
to 15 and a natural end both keep the position within bounds. -/
theorem claim_C5_amended_witness :
    PosInv (handleSeek initState 15) ∧ PosInv (onEnded initState) := by
  have h := claim_C5_amended initState (by decide)
  exact ⟨h.2.2.2.2.1 15 (by norm_num) (by norm_num [initState]), h.2.1⟩

/-- Claim C7: a play request from idle (no resource yet, not playing) first
enters the loading state (`togglePlayPending`: `setIsLoading(true)`,
element created) while still not playing; if the awaited `play()` rejects
(`togglePlay ... false`) the state returns to not loading and not playing
(idle), and likewise if the element's `error` listener fires.  The player
never reaches the playing state on this path, and both the `catch` and the
listener swallow the failure — `togglePlay` is a total function into
states, so no failure propagates to the caller. -/
theorem claim_C7 (s : PState) (hA : s.audio = none)
    (hP : s.isPlaying = false) (preview : String) :
    (togglePlayPending s preview).isLoading = true ∧
    (togglePlayPending s preview).isPlaying = false ∧
    (togglePlay s preview false).isLoading = false ∧
    (togglePlay s preview false).isPlaying = false ∧
    (onError (togglePlayPending s preview)).isLoading = false ∧
    (onError (togglePlayPending s preview)).isPlaying = false := by
  simp [togglePlay, togglePlayPending, onError, hA, hP]

/-- Claim C7, witness at the initial state. -/
theorem claim_C7_witness :
    (togglePlayPending initState "u").isLoading = true ∧
    (togglePlayPending initState "u").isPlaying = false ∧
    (togglePlay initState "u" false).isLoading = false ∧
    (togglePlay initState "u" false).isPlaying = false ∧
    (onError (togglePlayPending initState "u")).isLoading = false ∧
    (onError (togglePlayPending initState "u")).isPlaying = false :=
  claim_C7 initState rfl rfl "u"

/-- Claim C8: for every state whose known duration is positive and every
seek input value, the displayed progress fraction
`pct = min(100, max(0, currentTime / audioDuration * 100))` is clamped:
a seek beyond the known duration yields 100% and a seek below 0 yields
0%. -/
theorem claim_C8 (s : PState) (hd : 0 < s.audioDuration) (t : ℚ) :
    (s.audioDuration < t → pct (handleSeek s t) = 100) ∧
    (t < 0 → pct (handleSeek s t) = 0) := by
  constructor
  · intro h
    have h1 : (1 : ℚ) < t / s.audioDuration := (one_lt_div hd).2 h
    have h2 : (100 : ℚ) < t / s.audioDuration * 100 := by nlinarith
    have h3 : (0 : ℚ) ≤ t / s.audioDuration * 100 := by nlinarith
    simp only [pct, handleSeek]
    rw [max_eq_right h3, min_eq_left (le_of_lt h2)]
  · intro h
    have h1 : t / s.audioDuration < 0 := div_neg_of_neg_of_pos h hd
    have h2 : t / s.audioDuration * 100 < 0 := by nlinarith
    simp only [pct, handleSeek]
    rw [max_eq_left (le_of_lt h2)]
    norm_num

/-- Claim C8, witness: from the initial state (duration 30), a seek to 40
displays 100% and a seek to -1 displays 0%. -/
theorem claim_C8_witness :
    pct (handleSeek initState 40) = 100 ∧
    pct (handleSeek initState (-1)) = 0 :=
  ⟨(claim_C8 initState (by norm_num [initState]) 40).1
      (by norm_num [initState]),
   (claim_C8 initState (by norm_num [initState]) (-1)).2 (by norm_num)⟩

/-- Claim C9: after the `ended` listener fires on a player that has an
audio resource, `positionSeconds` is 0 and the player is not playing; a
subsequent play request keeps exactly the same audio resource and creates
no new one (`resourcesCreated` unchanged) whatever the play outcome, and a
successful play resumes the playing state. -/
theorem claim_C9 (s : PState) (a : AudioRes) (h : s.audio = some a)
    (preview : String) :
    (onEnded s).currentTime = 0 ∧
    (onEnded s).isPlaying = false ∧
    (∀ playOk,
      (togglePlay (onEnded s) preview playOk).audio = some a ∧
      (togglePlay (onEnded s) preview playOk).resourcesCreated =
        s.resourcesCreated) ∧
    (togglePlay (onEnded s) preview true).isPlaying = true := by
  refine ⟨by simp [onEnded, h], by simp [onEnded, h], ?_, ?_⟩
  · intro playOk
    cases playOk <;> simp [onEnded, togglePlay, h]
  · simp [onEnded, togglePlay, h]

/-- Claim C9, witness: a playing state holding the resource with creation
index 0. -/
theorem claim_C9_witness :
    (onEnded playingDemoState).currentTime = 0 ∧
    (onEnded playingDemoState).isPlaying = false ∧
    (∀ playOk,
      (togglePlay (onEnded playingDemoState) "u" playOk).audio =
        some ⟨0, "u"⟩ ∧
      (togglePlay (onEnded playingDemoState) "u"
        playOk).resourcesCreated = 1) ∧
    (togglePlay (onEnded playingDemoState) "u" true).isPlaying = true :=
  claim_C9 playingDemoState ⟨0, "u"⟩ rfl "u"

/-- Every well-formed event preserves strict positivity of
`audioDuration`: only `loadedmetadata` writes that field, and
`a.duration || 30` yields 30 for `NaN` or 0 and the (nonnegative, nonzero)
reported value otherwise. -/
theorem step_pos_duration (s : PState) (e : PEvent) (hWf : WfEvent e)
    (h : 0 < s.audioDuration) : 0 < (step s e).audioDuration := by
  cases e with
  | toggle preview playOk =>
    cases hA : s.audio <;> cases playOk <;> cases hP : s.isPlaying <;>
      simp [step, togglePlay, togglePlayPending, hA, hP, h]
  | ended => cases hA : s.audio <;> simp [step, onEnded, hA, h]
  | metadata d =>
    cases hA : s.audio <;> simp [step, onLoadedMetadata, hA, h]
    cases d with
    | none => simp [jsOr30]
    | some x =>
      have hx : 0 ≤ x := hWf
      by_cases hx0 : x = 0 <;> simp [jsOr30, hx0]
      exact lt_of_le_of_ne hx (Ne.symm hx0)
  | loadError => cases hA : s.audio <;> simp [step, onError, hA, h]
  | tick t =>
    cases hP : s.isPlaying <;> cases hA : s.audio <;>
      simp [step, progressTick, hP, hA, h]
  | seek t => simpa [step, handleSeek] using h

/-- Claim C10: `audioDuration` is initialized to 30 and, in every state
reachable along well-formed events (the host never reports a negative
duration; `NaN` is allowed), it is strictly positive — in particular it is
never 0, so the fraction `currentTime / audioDuration` never divides by
zero. -/
theorem claim_C10 (s : PState) (h : Reach s) :
    initState.audioDuration = 30 ∧ 0 < s.audioDuration := by
  refine ⟨rfl, ?_⟩
  obtain ⟨tr, hWf, rfl⟩ := h
  have key : ∀ (tr : List PEvent) (s0 : PState), (∀ e ∈ tr, WfEvent e) →
      0 < s0.audioDuration → 0 < (tr.foldl step s0).audioDuration := by
    intro tr
    induction tr with
    | nil => intro s0 _ h0; exact h0
    | cons e rest ih =>
      intro s0 hWf h0
      exact ih (step s0 e)
        (fun x hx => hWf x (List.mem_cons_of_mem _ hx))
        (step_pos_duration s0 e (hWf e (List.mem_cons_self _ _)) h0)
  exact key tr initState hWf (by norm_num [initState])

/-- Claim C10, witness: the state reached by a successful first play
followed by a metadata report of 25 seconds. -/
theorem claim_C10_witness :
    initState.audioDuration = 30 ∧
    0 < ([PEvent.toggle "u" true,
          PEvent.metadata (some 25)].foldl step initState).audioDuration :=
  claim_C10 _ ⟨[PEvent.toggle "u" true, PEvent.metadata (some 25)],
    by decide, rfl⟩

end MusicPlayer
